import Mathlib

/-!
Verification of the GixSQL preprocessor driver, the gixpp CLI front end and
the PostgreSQL runtime driver (`DbInterfacePGSQL`), by a shallow embedding of
the C++ sources into Lean.  Database backend responses are supplied as
explicit oracle parameters; everything else is translated directly from the
source functions.
-/

set_option maxRecDepth 4000

/-! ## Characters and small string helpers -/

/-- The single-quote character. -/
def squote : Char := Char.ofNat 39

/-- The double-quote character. -/
def dquote : Char := Char.ofNat 34

/-- `isalnum` from `<cctype>`, restricted to ASCII as used by the SQL texts
involved. -/
def isAlnum (c : Char) : Bool := c.isAlpha || c.isDigit

/-- Modelled from the spec: `to_lower` from the `utils` module (not under
`src/`) lower-cases a statement name character by character. -/
def to_lower (s : String) : String := String.mk (s.data.map Char.toLower)

/-- ASCII upper-casing, used to classify SQL verbs case-insensitively. -/
def strUpper (s : String) : String := String.mk (s.data.map Char.toUpper)

/-- Whitespace trimming as done by `trim_copy` in the `utils` module. -/
def strTrim (s : String) : String :=
  String.mk (((s.data.dropWhile Char.isWhitespace).reverse.dropWhile
      Char.isWhitespace).reverse)

/-- `starts_with` over the character lists of two strings. -/
def strStartsWith (s pre : String) : Bool := pre.data.isPrefixOf s.data

/-- Modelled from the spec: `is_update_or_delete_statement` from the `utils`
module is not under `src/`; the spec says the zero-row check applies "after a
successful INSERT/UPDATE/DELETE", so the classifier recognises those three
verbs on the trimmed, upper-cased query. -/
def is_update_or_delete_statement (q : String) : Bool :=
  let t := strUpper (strTrim q)
  strStartsWith t "INSERT" || strStartsWith t "UPDATE" || strStartsWith t "DELETE"

/-- Modelled from the spec: `is_tx_termination_statement` from the `utils`
module is not under `src/`; the driver's comment says "we trap
COMMIT/ROLLBACK", so the classifier recognises those two verbs on the
trimmed, upper-cased query. -/
def is_tx_termination_statement (q : String) : Bool :=
  let t := strUpper (strTrim q)
  strStartsWith t "COMMIT" || strStartsWith t "ROLLBACK"

/-! ## Error codes and libpq status values

`gixsql.h` is not under `src/`.  The spec fixes the convention: 0 is success,
failures are negative codes, and 100 is the conventional "no data" code.
The exact negative values are immaterial to every claim; they only need to be
pairwise distinct. -/

def DBERR_NO_ERROR : Int := 0
def DBERR_CONNECTION_FAILED : Int := -100
def DBERR_CONN_RESET_FAILED : Int := -101
def DBERR_SQL_ERROR : Int := -102
def DBERR_INTERNAL_ERR : Int := -103
def DBERR_PREPARE_FAILED : Int := -104
def DBERR_DECLARE_CURSOR_FAILED : Int := -105
def DBERR_OPEN_CURSOR_FAILED : Int := -106
def DBERR_CLOSE_CURSOR_FAILED : Int := -107
def DBERR_FETCH_ROW_FAILED : Int := -108
def DBERR_TOO_MUCH_DATA : Int := -109
def DBERR_MOVE_TO_FIRST_FAILED : Int := -110
def DBERR_NO_DATA : Int := 100

/-- `PGRES_COMMAND_OK` from libpq's `ExecStatusType`. -/
def PGRES_COMMAND_OK : Int := 1

/-- `PGRES_TUPLES_OK` from libpq's `ExecStatusType`. -/
def PGRES_TUPLES_OK : Int := 2

/-- The `DB_NULL` length sentinel marking a SQL NULL parameter binding
(declared outside `src/`; its concrete value is immaterial, it only needs to
be distinguishable from real lengths). -/
def DB_NULL : Nat := 4294967295

/-! ## `pgsql_fixup_parameters` (DbInterfaceFactory.cpp, lines 1181-1226) -/

/-- `std::to_string(n)` for the `$n` placeholder. -/
def dollarNum (n : Nat) : List Char := '$' :: Nat.toDigits 10 n

/-- Loop body of `pgsql_fixup_parameters`: the state is the next placeholder
number `n` and the flags `in_single_quoted_string`, `in_double_quoted_string`
and `in_param_id`, exactly as in the C++ loop. -/
def fixupAux : List Char → Nat → Bool → Bool → Bool → List Char
  | [], _, _, _, _ => []
  | c :: rest, n, inS, inD, inP =>
    if inP && isAlnum c then
      fixupAux rest n inS inD true
    else if c = dquote then
      c :: fixupAux rest n inS (!inD) false
    else if c = squote then
      c :: fixupAux rest n (!inS) inD false
    else if c = '?' ∨ c = ':' then
      if !inS && !inD then
        dollarNum n ++ fixupAux rest (n + 1) inS inD true
      else
        c :: fixupAux rest n inS inD false
    else
      c :: fixupAux rest n inS inD false

/-- `pgsql_fixup_parameters`: rewrites `?`/`:name` markers to `$n` before a
statement is prepared, over the character list of the SQL text. -/
def pgsql_fixup_parameters (sql : List Char) : List Char :=
  fixupAux sql 1 false false false

/-- `pgsql_fixup_parameters` on a `String`, as called by `prepare`. -/
def pgsql_fixup_parameters_str (sql : String) : String :=
  String.mk (pgsql_fixup_parameters sql.data)

/-- What the claim says `pgsql_fixup_parameters` does (this definition follows
the claim's words, not the source): quoted regions are properly bracketed — a
quote character inside a region delimited by the other quote kind is an
ordinary character — every character inside a quoted region is copied
verbatim, each `?` marker and each `:name` marker outside quoted regions is
replaced by `$n` in left-to-right order.  `mode` is 0 outside quotes, 1 inside
a single-quoted region, 2 inside a double-quoted region. -/
def fixupClaimedGo : Nat → List Char → Nat → Nat → List Char
  | 0, _, _, _ => []
  | _ + 1, [], _, _ => []
  | fuel + 1, c :: rest, n, 0 =>
    if c = squote then c :: fixupClaimedGo fuel rest n 1
    else if c = dquote then c :: fixupClaimedGo fuel rest n 2
    else if c = '?' then dollarNum n ++ fixupClaimedGo fuel rest (n + 1) 0
    else if c = ':' then
      dollarNum n ++ fixupClaimedGo fuel (rest.dropWhile isAlnum) (n + 1) 0
    else c :: fixupClaimedGo fuel rest n 0
  | fuel + 1, c :: rest, n, 1 =>
    if c = squote then c :: fixupClaimedGo fuel rest n 0
    else c :: fixupClaimedGo fuel rest n 1
  | fuel + 1, c :: rest, n, _ =>
    if c = dquote then c :: fixupClaimedGo fuel rest n 0
    else c :: fixupClaimedGo fuel rest n 2

/-- Entry point of the claim-words rewriter: the fuel (one unit per consumed
character) makes the recursion structural. -/
def fixup_as_claimed (cs : List Char) : List Char := fixupClaimedGo cs.length cs 1 0

/-- The behaviour `pgsql_fixup_parameters` actually implements, stated
independently of the `in_param_id` bookkeeping flag: each quote character
toggles its own flag unconditionally, a `?` or `:` seen with both flags clear
is replaced by `$n` and the alphanumeric run right after it is dropped, and
every other character is copied. -/
def fixupAmended : List Char → Nat → Bool → Bool → List Char
  | [], _, _, _ => []
  | c :: rest, n, inS, inD =>
    if c = dquote then c :: fixupAmended rest n inS (!inD)
    else if c = squote then c :: fixupAmended rest n (!inS) inD
    else if (c = '?' ∨ c = ':') ∧ !inS ∧ !inD then
      dollarNum n ++ fixupAmended (rest.dropWhile isAlnum) (n + 1) inS inD
    else c :: fixupAmended rest n inS inD
termination_by l _ _ _ => l.length
decreasing_by
  all_goals simp_wf
  all_goals exact Nat.lt_succ_of_le ((List.dropWhile_sublist _).length_le)

/-! ## The PGSQL driver state (DbInterfacePGSQL, DbInterfaceFactory.cpp) -/

/-- The observable content of a libpq `PGresult`: its `PQresultStatus`, its
`PQresultErrorMessage`, its `PG_DIAG_SQLSTATE` error field (absent on
successful results) and the integer that `atoi(PQcmdTuples(r))` yields — for
`INSERT`/`UPDATE`/`DELETE` results the affected-row count and for
`SELECT`/`FETCH` results the number of returned rows. -/
structure PGResult where
  status : Int
  errorMsg : String
  sqlstate : Option String
  cmdTuples : Int
deriving DecidableEq, Repr

/-- `pg_get_sqlstate`: the SQLSTATE error field of a result, defaulting to
`00000` when libpq reports none. -/
def sqlstateOf (r : PGResult) : String := r.sqlstate.getD "00000"

/-- `PGResultSetData`: a backend result handle (`nullptr` allowed) plus the
emulated-cursor bookkeeping fields. -/
structure PGResultSetData where
  resultset : Option PGResult
  current_row_index : Int
  num_rows : Int
deriving DecidableEq, Repr

/-- A freshly constructed `PGResultSetData` holding result `r`
(`current_row_index` starts at -1, `num_rows` at 0). -/
def mkResultSetData (r : PGResult) : PGResultSetData := ⟨some r, -1, 0⟩

/-- The driver fields the claims touch: the prepared-statement table
(lower-cased name, value possibly `nullptr`), the current result set, the
`(last_rc, last_error, last_state)` triple and the connection options. -/
structure PGState where
  prepared_stmts : List (String × Option PGResultSetData)
  current_resultset : Option PGResultSetData
  last_rc : Int
  last_error : String
  last_state : String
  autocommit_off : Bool
  fixup_parameters : Bool
  use_native_cursors : Bool
  decode_binary : Bool
deriving DecidableEq, Repr

/-- `std::map::operator[]` assignment on the prepared-statement table. -/
def mapSet {α : Type} (m : List (String × α)) (k : String) (v : α) :
    List (String × α) :=
  match m with
  | [] => [(k, v)]
  | (k0, v0) :: rest => if k0 = k then (k, v) :: rest else (k0, v0) :: mapSet rest k v

/-- `pgsqlSetError`. -/
def pgsqlSetError (st : PGState) (err_code : Int) (sqlstate err_msg : String) :
    PGState :=
  { st with last_rc := err_code, last_state := sqlstate, last_error := err_msg }

/-- Result of one `_pgsql_exec` / `_pgsql_exec_params` call: the returned
code, the driver state afterwards and the SQL commands sent to the backend,
in order. -/
structure ExecResult where
  rc : Int
  st : PGState
  issued : List String
deriving Repr

/-- Common tail of `_pgsql_exec` and `_pgsql_exec_params` (statement already
sent, status recorded in `st1`): the COMMIT/ROLLBACK trap that restarts a
transaction when autocommit is off, then the zero-row check for DML, then the
ordinary success/failure dispatch.  `bk` answers the internally issued
`START TRANSACTION`; `numRows` is the row count the zero-row check reads
(`get_num_rows(resultset)` in `_pgsql_exec`, `wk_rs->num_rows` in
`_pgsql_exec_params` - both equal `atoi(PQcmdTuples)`); `stored` is the
result-set record installed as current on success. -/
def pgExecTail (st1 : PGState) (bk : String → PGResult) (r : PGResult)
    (query : String) (numRows : Int) (stored : PGResultSetData) : ExecResult :=
  if st1.autocommit_off && is_tx_termination_statement query then
    if r.status = PGRES_COMMAND_OK then
      let r2 := bk "START TRANSACTION"
      let st2 := { st1 with last_rc := r2.status, last_error := r2.errorMsg,
                            last_state := sqlstateOf r2 }
      { rc := if r2.status ≠ PGRES_COMMAND_OK then DBERR_SQL_ERROR else DBERR_NO_ERROR,
        st := st2, issued := [query, "START TRANSACTION"] }
    else
      -- COMMIT/ROLLBACK failed: the error is handled by the blocks below
      pgExecFinish st1 r query numRows stored
  else
    pgExecFinish st1 r query numRows stored
where
  pgExecFinish (st1 : PGState) (r : PGResult) (query : String) (numRows : Int)
      (stored : PGResultSetData) : ExecResult :=
    if r.status = PGRES_COMMAND_OK ∧ is_update_or_delete_statement query ∧ numRows ≤ 0 then
      { rc := DBERR_SQL_ERROR, st := { st1 with last_rc := 100 }, issued := [query] }
    else if r.status = PGRES_COMMAND_OK ∨ r.status = PGRES_TUPLES_OK then
      { rc := DBERR_NO_ERROR,
        st := { st1 with current_resultset := some stored }, issued := [query] }
    else
      { rc := DBERR_SQL_ERROR, st := { st1 with last_rc := -(10000 + r.status) },
        issued := [query] }

/-- `_pgsql_exec` for a null cursor, i.e. `exec(query)`: the previous current
result set is dropped, the query is sent via `PQexecParams` with no
parameters (`bk` is the backend's answer), and `pgExecTail` finishes. -/
def pgExec (st : PGState) (bk : String → PGResult) (query : String) : ExecResult :=
  let r := bk query
  let st1 := { st with current_resultset := none, last_rc := r.status,
                       last_error := r.errorMsg, last_state := sqlstateOf r }
  pgExecTail st1 bk r query r.cmdTuples (mkResultSetData r)

/-- A parameter binding marshalled by `pgsqlParamArray::assign`: `none` is a
SQL NULL (the `DB_NULL` length sentinel), otherwise the first `len` bytes of
the value. -/
def buildParamVals : List (List Char) → List Nat → Option (List (Option (List Char)))
  | [], _ => some []
  | _ :: _, [] => none  -- paramLengths.at(i) throws std::out_of_range
  | v :: vs, l :: ls =>
    (buildParamVals vs ls).map
      (fun rest => (if l = DB_NULL then none else some (v.take l)) :: rest)

/-- Outcome of `_pgsql_exec_params` / `exec_prepared`: either the C++ call
throws (`paramLengths.at(i)` past the end) or it returns. -/
inductive ExecParamsOutcome where
  | thrown
  | ret (r : ExecResult)
deriving Repr

/-- The returned code, when the call returned. -/
def ExecParamsOutcome.rcOf : ExecParamsOutcome → Option Int
  | .thrown => none
  | .ret r => some r.rc

/-- The driver state afterwards, when the call returned. -/
def ExecParamsOutcome.stOf : ExecParamsOutcome → Option PGState
  | .thrown => none
  | .ret r => some r.st

/-- The statements sent to the backend, when the call returned. -/
def ExecParamsOutcome.issuedOf : ExecParamsOutcome → Option (List String)
  | .thrown => none
  | .ret r => some r.issued

/-- `_pgsql_exec_params` for a null cursor, i.e. `exec_params(...)`:
the parameter-count check compares `paramTypes` against `paramValues` and
against `paramFlags`; marshalling reads `paramLengths.at(i)`; then the query
is sent with the marshalled bindings (`bkP` is the backend's answer to
`PQexecParams`, `bk` to the plain `PQexec` used for `START TRANSACTION`). -/
def pgExecParams (st : PGState) (bkP : String → List (Option (List Char)) → PGResult)
    (bk : String → PGResult) (query : String) (paramTypes : List Nat)
    (paramValues : List (List Char)) (paramLengths : List Nat)
    (paramFlags : List Nat) : ExecParamsOutcome :=
  if paramTypes.length ≠ paramValues.length ∨ paramTypes.length ≠ paramFlags.length then
    .ret { rc := DBERR_INTERNAL_ERR,
           st := { st with last_error := "Internal error: parameter count mismatch",
                           last_rc := DBERR_INTERNAL_ERR },
           issued := [] }
  else
    match buildParamVals paramValues paramLengths with
    | none => .thrown
    | some pv =>
      let r := bkP query pv
      let st1 := { st with current_resultset := none, last_rc := r.status,
                           last_error := r.errorMsg, last_state := sqlstateOf r }
      .ret (pgExecTail st1 bk r query r.cmdTuples
        { mkResultSetData r with num_rows := r.cmdTuples })

/-- `prepare(stmt_name, query)`: the name is lower-cased, a duplicate fails
with `DBERR_PREPARE_FAILED` before anything else happens, otherwise the SQL
is optionally rewritten by `pgsql_fixup_parameters` and handed to `PQprepare`
(`bkPrep` is the backend's answer); on success the name is recorded with a
null result handle. -/
def pgPrepare (st : PGState) (bkPrep : String → String → PGResult)
    (stmt_name query : String) : Int × PGState :=
  let nm := to_lower stmt_name
  if (st.prepared_stmts.lookup nm).isSome then
    (DBERR_PREPARE_FAILED, st)
  else
    let prepared_sql := if st.fixup_parameters then pgsql_fixup_parameters_str query else query
    let r := bkPrep nm prepared_sql
    let st1 := { st with last_rc := r.status, last_error := r.errorMsg,
                         last_state := sqlstateOf r }
    if r.status ≠ PGRES_COMMAND_OK then
      (DBERR_PREPARE_FAILED, st1)
    else
      (DBERR_NO_ERROR, { st1 with prepared_stmts := mapSet st.prepared_stmts nm none })

/-- `exec_prepared(stmt_name, ...)`: the name is lower-cased and must be in
the table; the (duplicated) parameter-count check compares `paramTypes`
against `paramValues` and `paramFlags`; marshalling reads
`paramLengths.at(i)`; `bkExecP` answers `PQexecPrepared`. -/
def pgExecPrepared (st : PGState)
    (bkExecP : String → List (Option (List Char)) → PGResult) (stmt_name : String)
    (paramTypes : List Nat) (paramValues : List (List Char))
    (paramLengths : List Nat) (paramFlags : List Nat) : ExecParamsOutcome :=
  let nm := to_lower stmt_name
  if (st.prepared_stmts.lookup nm).isNone then
    .ret { rc := DBERR_SQL_ERROR, st := st, issued := [] }
  else if paramTypes.length ≠ paramValues.length ∨ paramTypes.length ≠ paramFlags.length then
    .ret { rc := DBERR_INTERNAL_ERR,
           st := { st with last_error := "Internal error: parameter count mismatch",
                           last_rc := DBERR_INTERNAL_ERR },
           issued := [] }
  else
    match buildParamVals paramValues paramLengths with
    | none => .thrown
    | some pv =>
      let r := bkExecP nm pv
      let st1 := { st with last_rc := r.status, last_error := r.errorMsg,
                           last_state := sqlstateOf r }
      if r.status = PGRES_COMMAND_OK ∨ r.status = PGRES_TUPLES_OK then
        let tbl := mapSet st.prepared_stmts nm (some (mkResultSetData r))
        .ret { rc := DBERR_NO_ERROR,
               st := { st1 with prepared_stmts := tbl },
               issued := [nm] }
      else
        .ret { rc := DBERR_SQL_ERROR,
               st := { st1 with last_rc := -(10000 + r.status) }, issued := [nm] }

/-- `get_num_rows(PGresult*)`: `atoi(PQcmdTuples(r))`, or -1 for a null
result pointer. -/
def get_num_rows : Option PGResult → Int
  | none => -1
  | some r => r.cmdTuples

/-- `move_to_first_record(stmt_name)`: an empty (lower-cased) name selects
the current result set, otherwise the prepared-statement table is consulted;
a missing or null result set fails with `MOVE_TO_FIRST_FAILED`/`HY000`, a
result set with no rows fails with `NO_DATA`/`02000`. -/
def move_to_first_record (st : PGState) (stmt_name : String) : Bool × PGState :=
  let nm := to_lower stmt_name
  if nm = "" then
    moveToFirstCheck st st.current_resultset
  else
    match st.prepared_stmts.lookup nm with
    | none =>
      (false, pgsqlSetError st DBERR_MOVE_TO_FIRST_FAILED "HY000" "Invalid statement reference")
    | some wk_rs => moveToFirstCheck st wk_rs
where
  moveToFirstCheck (st : PGState) (wk_rs : Option PGResultSetData) : Bool × PGState :=
    match wk_rs with
    | none =>
      (false, pgsqlSetError st DBERR_MOVE_TO_FIRST_FAILED "HY000" "Invalid statement reference")
    | some rsd =>
      match rsd.resultset with
      | none =>
        (false, pgsqlSetError st DBERR_MOVE_TO_FIRST_FAILED "HY000" "Invalid statement reference")
      | some r =>
        if get_num_rows (some r) ≤ 0 then
          (false, pgsqlSetError st DBERR_NO_DATA "02000" "No data")
        else
          (true, st)

/-! ## `get_resultset_value` (DbInterfaceFactory.cpp, lines 926-1022)

We model the value-copying part of the function (from the `PQgetvalue` call
on), once the result-set context has been resolved: `res` is the value
`PQgetvalue` returns for `(row, col)` (`none` for a null pointer, otherwise
the characters of the C string, so its length is `strlen(res)`),
`is_null_flag` is `PQgetisnull`, `col_is_bytea` is `PQftype(col) == OID_BYTEA`
and `unescaped` is what `PQunescapeBytea` would yield.  The outcome records
the returned boolean and how many bytes of the caller's buffer `bfr` were
written, always starting at `bfr[0]`. -/

/-- Outcome of `get_resultset_value`: failure (nothing written to `bfr`), or
success with the number of bytes written and the reported value length and
null flag. -/
inductive GrvOutcome where
  | fail
  | ok (written : Nat) (value_len : Nat) (is_null : Bool)
deriving DecidableEq, Repr

/-- Bytes written into the caller's buffer. -/
def GrvOutcome.written : GrvOutcome → Nat
  | .fail => 0
  | .ok w _ _ => w

/-- Whether the call returned false. -/
def GrvOutcome.isFail : GrvOutcome → Bool
  | .fail => true
  | .ok _ _ _ => false

/-- `get_resultset_value`, value-copying part.  The non-binary branch copies
`to_length + 1` bytes (value plus trailing NUL); the binary branch copies the
unescaped bytes and zero-fills the rest of the buffer; a null value writes a
single NUL at `bfr[0]`. -/
def get_resultset_value (decode_binary col_is_bytea : Bool)
    (res : Option (List Char)) (is_null_flag : Bool)
    (unescaped : Option (List Char)) (bfrlen : Nat) : GrvOutcome :=
  match res with
  | none => .fail
  | some v =>
    if v.length = 0 ∧ is_null_flag then
      .ok 1 0 true
    else if ¬(col_is_bytea ∧ decode_binary) then
      if v.length > bfrlen then .fail
      else .ok (v.length + 1) v.length false
    else
      match unescaped with
      | none => .fail
      | some u =>
        if u.length > bfrlen then .fail
        else .ok (if u.length < bfrlen then bfrlen else u.length) u.length false

/-! ## `cursor_close` (DbInterfaceFactory.cpp, lines 795-812) -/

/-- The cursor fields `cursor_close` touches. -/
structure PGCursor where
  name : String
  privateData : Option PGResultSetData
deriving DecidableEq, Repr

/-- `cursor_close(cursor)`: a null cursor fails; otherwise, with native
cursors, `CLOSE <name>` is executed through `exec` — but its return value is
bound to an inner `int rc` that shadows the outer `rc`, which stays
`DBERR_NO_ERROR` — then the cursor's private result-set data is cleared and
the outer `rc` decides the returned code. -/
def cursor_close (st : PGState) (bk : String → PGResult) (cursor : Option PGCursor) :
    Int × PGState × Option PGCursor :=
  let rc := DBERR_NO_ERROR
  match cursor with
  | none => (DBERR_CLOSE_CURSOR_FAILED, st, none)
  | some c =>
    let st1 := if st.use_native_cursors then (pgExec st bk ("CLOSE " ++ c.name)).st else st
    let c2 := if c.privateData.isSome then { c with privateData := none } else c
    ((if rc = DBERR_NO_ERROR then DBERR_NO_ERROR else DBERR_CLOSE_CURSOR_FAILED), st1, some c2)

/-! ## `connect` (DbInterfaceFactory.cpp, lines 357-501)

We model the command traffic after `PQconnectdbParams`: `conn_ok` stands for
a non-null connection in `CONNECTION_OK` state, `encoding_ok` for a
successful `PQsetClientEncoding` (trivially true when no client encoding is
configured).  The `default_schema` option sends a `set search_path` command;
with autocommit off a single `BEGIN TRANSACTION` is sent; any failure ends
the connect with `DBERR_CONNECTION_FAILED`.  The returned list is every SQL
command issued, in order. -/
def pgConnect (conn_ok encoding_ok : Bool) (bk : String → PGResult)
    (autocommit_off : Bool) (default_schema : Option String) : Int × List String :=
  if ¬conn_ok then (DBERR_CONNECTION_FAILED, [])
  else if ¬encoding_ok then (DBERR_CONNECTION_FAILED, [])
  else
    match default_schema with
    | some sch =>
      if sch ≠ "" then
        let cmd := "set search_path to " ++ sch
        if (bk cmd).status ≠ PGRES_COMMAND_OK then (DBERR_CONNECTION_FAILED, [cmd])
        else pgConnectTx bk autocommit_off [cmd]
      else pgConnectTx bk autocommit_off []
    | none => pgConnectTx bk autocommit_off []
where
  pgConnectTx (bk : String → PGResult) (autocommit_off : Bool)
      (issued : List String) : Int × List String :=
    if autocommit_off then
      if (bk "BEGIN TRANSACTION").status ≠ PGRES_COMMAND_OK then
        (DBERR_CONNECTION_FAILED, issued ++ ["BEGIN TRANSACTION"])
      else
        (DBERR_NO_ERROR, issued ++ ["BEGIN TRANSACTION"])
    else (DBERR_NO_ERROR, issued)

/-- PostgreSQL session transaction state, tracked over successfully executed
commands: `BEGIN TRANSACTION` / `START TRANSACTION` leave a transaction open
(PostgreSQL does not nest transactions), `COMMIT` / `ROLLBACK` close it,
anything else leaves the state unchanged.  `true` means exactly one
transaction is open. -/
def txnStep (txn_open : Bool) (cmd : String) : Bool :=
  if cmd = "BEGIN TRANSACTION" ∨ cmd = "START TRANSACTION" then true
  else if is_tx_termination_statement cmd then false
  else txn_open

/-- Transaction state after a command trace, starting from `b`. -/
def txnAfter (b : Bool) (cmds : List String) : Bool := cmds.foldl txnStep b

/-! ## The preprocessor pipeline (GixPreProcessor::process / transform) -/

/-- `TransformationStepDataType`. -/
inductive TSDType where
  | Filename
  | Buffer
deriving DecidableEq, Repr

/-- `TransformationStepData`: a tagged value, here a kind plus its string
payload (a file name or a buffer identifier). -/
structure TransformationStepData where
  ty : TSDType
  name : String
deriving DecidableEq, Repr

/-- Modelled from the spec: `TransformationStepData::isValid` is not under
`src/`; the spec says a Filename-kind value is valid iff the path is
non-empty (existence of the input file is checked separately by
`file_exists`, error 4). -/
def isValidTSD (d : TransformationStepData) : Bool := d.name ≠ ""

/-- The fields of an `ITransformationStep` the driver reads or writes. -/
structure TStep where
  input : Option TransformationStepData
  output : Option TransformationStepData
deriving DecidableEq, Repr

/-- One record of the pipeline execution trace: the input a step had at the
moment `run` was invoked on it, the output its `run` produced, and whether
`run` succeeded. -/
structure RunEntry where
  input : Option TransformationStepData
  output : Option TransformationStepData
  ok : Bool
deriving DecidableEq, Repr

/-- `GixPreProcessor::transform()`: iterate the step list in order, carrying
the previous step's output; every step except the first has its input set to
that output just before `run`; a failing `run` stops the loop.  `runs k inp`
abstracts what step `k`'s `run` does: given the step's input it returns
success and the output it stores.  The steps the CLI registers are distinct
objects, so the C++ guard `step != steps.at(0)` is the index test `k ≠ 0`.
The returned trace lists, in order, each executed step's input, output and
success. -/
def transformTrace (runs : Nat → Option TransformationStepData → Bool × Option TransformationStepData) :
    List TStep → Nat → Option TransformationStepData → Bool × List RunEntry
  | [], _, _ => (true, [])
  | s :: rest, k, prevOut =>
    let inp := if k = 0 then s.input else prevOut
    let res := runs k inp
    if res.1 then
      let tail := transformTrace runs rest (k + 1) res.2
      (tail.1, ⟨inp, res.2, res.1⟩ :: tail.2)
    else
      (false, [⟨inp, res.2, res.1⟩])

/-- `lastStep()->setOutput(outfile)`: set the output field of the last step. -/
def setLastOutput : List TStep → TransformationStepData → List TStep
  | [], _ => []
  | [s], o => [{ s with output := some o }]
  | s :: rest, o => s :: setLastOutput rest o

/-- `GixPreProcessor::process()`: an empty step list returns false at once
(no step runs); otherwise the input marker (a Filename record carrying
`_infile`) is installed as step 0's input and the output marker as the last
step's output, the input/output validity checks and the input-existence
check run (errors 1, 2 and 4), and `transform()` chains the steps.  `none`
means `transform()` was never reached. -/
def process (steps : List TStep) (_infile _outfile : String) (no_output : Bool)
    (fexists : String → Bool)
    (runs : Nat → Option TransformationStepData → Bool × Option TransformationStepData) :
    Option (Bool × List RunEntry) :=
  match steps with
  | [] => none
  | s0 :: rest =>
    let infd : TransformationStepData := ⟨TSDType.Filename, _infile⟩
    let outfd : TransformationStepData := ⟨TSDType.Filename, _outfile⟩
    let wired := setLastOutput ({ s0 with input := some infd } :: rest) outfd
    if ¬isValidTSD infd then none
    else if ¬no_output ∧ ¬isValidTSD outfd then none
    else if ¬fexists _infile then none
    else some (transformTrace runs wired 0 none)

/-! ## The gixpp CLI output-file alias (main / is_alias / get_basename) -/

/-- Index of the last `.` in a character list, if any. -/
def lastDotIdx (cs : List Char) : Option Nat :=
  let k := (cs.reverse.takeWhile (fun c => c ≠ '.')).length
  if k = cs.length then none else some (cs.length - k - 1)

/-- `std::filesystem::path` stem/extension splitting for a plain file name
(no directory components): the names `.` and `..`, names without a dot and
names whose only dot is the leading character have an empty extension;
otherwise the extension starts at the last dot and includes it. -/
def fsSplit (f : String) : String × String :=
  let cs := f.data
  if cs = ['.'] ∨ cs = ['.', '.'] then (f, "")
  else
    match lastDotIdx cs with
    | none => (f, "")
    | some 0 => (f, "")
    | some i => (String.mk (cs.take i), String.mk (cs.drop i))

/-- `p.stem()`. -/
def fsStem (f : String) : String := (fsSplit f).1

/-- `p.extension()` (note: it includes the leading dot). -/
def fsExtension (f : String) : String := (fsSplit f).2

/-- `is_alias(f, ext)`: true when the stem is the literal `@`, in which case
`ext` receives `p.extension().string()`. -/
def is_alias (f : String) : Option String :=
  if fsStem f = "@" then some (fsExtension f) else none

/-- The outfile computation in `main`: when the outfile argument is an alias,
`outfile = get_basename(infile) + "." + outext` (and `get_basename` is the
stem of the infile). -/
def deriveOutfile (infile outfile : String) : String :=
  match is_alias outfile with
  | some ext => fsStem infile ++ "." ++ ext
  | none => outfile

/-- The in/out file validation in `main`: equal names print
"input and output file must be different" and exit with code 1. -/
def checkFiles (infile outfile : String) : Except Nat String :=
  let o := deriveOutfile infile outfile
  if infile = o then Except.error 1 else Except.ok o

/-! ## Shared concrete fixtures (used by witnesses and counterexamples) -/

/-- A concrete driver state used by witnesses: empty tables, autocommit on. -/
def stFix : PGState := ⟨[], none, 0, "", "", false, true, true, true⟩

/-- A concrete backend answering every command with `PGRES_COMMAND_OK`. -/
def bkFix : String → PGResult := fun _ => ⟨PGRES_COMMAND_OK, "", none, 0⟩

/-- A concrete parameterised backend answering with `PGRES_COMMAND_OK`. -/
def bkPFix : String → List (Option (List Char)) → PGResult :=
  fun _ _ => ⟨PGRES_COMMAND_OK, "", none, 0⟩

/-- A concrete driver state with autocommit off. -/
def stOffFix : PGState := ⟨[], none, 0, "", "", true, true, true, true⟩

/-- The result-set record `move_to_first_record` ends up checking: the
current result set for an empty (lower-cased) name, the prepared-statement
table entry otherwise; a missing table entry and a null entry are
indistinguishable here because both take the same error path. -/
def resolveStmtRS (st : PGState) (nm : String) : Option PGResultSetData :=
  if nm = "" then st.current_resultset
  else
    match st.prepared_stmts.lookup nm with
    | none => none
    | some w => w

/-- The pipeline-chaining invariant over an execution trace: every executed
step ran with the output the previous executed step produced as its input. -/
def chainOK (tr : List RunEntry) : Prop :=
  ∀ i e1 e2, tr.get? (i + 1) = some e2 → tr.get? i = some e1 →
    e2.input = e1.output

/-! ## Supporting lemmas -/

theorem head_of_strStartsWith (s pre : String) (c : Char) (rest : List Char)
    (hpre : pre.data = c :: rest) (h : strStartsWith s pre = true) :
    s.data.head? = some c := by
  unfold strStartsWith at h
  rw [List.isPrefixOf_iff_prefix] at h
  obtain ⟨tl, htl⟩ := h
  rw [hpre] at htl
  rw [← htl]
  rfl

/-- An INSERT/UPDATE/DELETE statement is never recognised as COMMIT/ROLLBACK:
the first character of the trimmed, upper-cased text differs. -/
theorem not_tx_of_dml (q : String) (h : is_update_or_delete_statement q = true) :
    is_tx_termination_statement q = false := by
  unfold is_update_or_delete_statement at h
  unfold is_tx_termination_statement
  simp only [Bool.or_eq_true] at h
  have hhead : (strUpper (strTrim q)).data.head? = some 'I' ∨
      (strUpper (strTrim q)).data.head? = some 'U' ∨
      (strUpper (strTrim q)).data.head? = some 'D' := by
    rcases h with (h | h) | h
    · exact Or.inl (head_of_strStartsWith _ _ _ _ rfl h)
    · exact Or.inr (Or.inl (head_of_strStartsWith _ _ _ _ rfl h))
    · exact Or.inr (Or.inr (head_of_strStartsWith _ _ _ _ rfl h))
  have hC : strStartsWith (strUpper (strTrim q)) "COMMIT" = false := by
    by_cases hc2 : strStartsWith (strUpper (strTrim q)) "COMMIT" = true
    · exfalso
      have hcc := head_of_strStartsWith _ _ 'C' _ rfl hc2
      rcases hhead with hh | hh | hh <;> rw [hcc] at hh <;> simp at hh
    · simpa using hc2
  have hR : strStartsWith (strUpper (strTrim q)) "ROLLBACK" = false := by
    by_cases hr2 : strStartsWith (strUpper (strTrim q)) "ROLLBACK" = true
    · exfalso
      have hrr := head_of_strStartsWith _ _ 'R' _ rfl hr2
      rcases hhead with hh | hh | hh <;> rw [hrr] at hh <;> simp at hh
    · simpa using hr2
  simp [hC, hR]

/-- The `set search_path` command never collides with the transaction
opener: the lengths differ. -/
theorem schema_cmd_ne_begin (s : String) :
    ("set search_path to " ++ s) ≠ "BEGIN TRANSACTION" := by
  intro h
  have hl := congrArg String.length h
  rw [String.length_append] at hl
  have h19 : ("set search_path to " : String).length = 19 := by decide
  have h17 : ("BEGIN TRANSACTION" : String).length = 17 := by decide
  omega

/-- `pgConnect` with a live connection, working encoding and autocommit off,
when it succeeds, has issued `BEGIN TRANSACTION` exactly once, as the last
command. -/
theorem pgConnect_off_success (bk : String → PGResult) (sch : Option String)
    (hconn : (pgConnect true true bk true sch).1 = DBERR_NO_ERROR) :
    ∃ pre, (pgConnect true true bk true sch).2 = pre ++ ["BEGIN TRANSACTION"] ∧
      pre.count "BEGIN TRANSACTION" = 0 := by
  have hCF : ¬(DBERR_CONNECTION_FAILED = DBERR_NO_ERROR) := by decide
  cases sch with
  | none =>
    unfold pgConnect pgConnect.pgConnectTx at hconn ⊢
    simp only [eq_self_iff_true, not_true, if_false, if_true] at hconn ⊢
    by_cases hb : (bk "BEGIN TRANSACTION").status ≠ PGRES_COMMAND_OK
    · rw [if_pos hb] at hconn
      exact absurd hconn hCF
    · rw [if_neg hb]
      exact ⟨[], rfl, rfl⟩
  | some s =>
    unfold pgConnect pgConnect.pgConnectTx at hconn ⊢
    simp only [eq_self_iff_true, not_true, if_false, if_true] at hconn ⊢
    by_cases hs : s ≠ ""
    · rw [if_pos hs] at hconn ⊢
      by_cases hsc : (bk ("set search_path to " ++ s)).status ≠ PGRES_COMMAND_OK
      · rw [if_pos hsc] at hconn
        exact absurd hconn hCF
      · rw [if_neg hsc] at hconn ⊢
        by_cases hb : (bk "BEGIN TRANSACTION").status ≠ PGRES_COMMAND_OK
        · rw [if_pos hb] at hconn
          exact absurd hconn hCF
        · rw [if_neg hb]
          refine ⟨["set search_path to " ++ s], rfl, ?_⟩
          simp [List.count_cons, schema_cmd_ne_begin s]
    · rw [if_neg hs] at hconn ⊢
      by_cases hb : (bk "BEGIN TRANSACTION").status ≠ PGRES_COMMAND_OK
      · rw [if_pos hb] at hconn
        exact absurd hconn hCF
      · rw [if_neg hb]
        exact ⟨[], rfl, rfl⟩

/-- For a non-zero start index, the first executed step's input is the
carried predecessor output. -/
theorem transformTrace_head_input
    (runs : Nat → Option TransformationStepData → Bool × Option TransformationStepData)
    (steps : List TStep) (k : Nat) (prevOut : Option TransformationStepData) :
    ∀ e, (transformTrace runs steps (k + 1) prevOut).2.head? = some e →
      e.input = prevOut := by
  intro e he
  cases steps with
  | nil => simp [transformTrace] at he
  | cons s rest =>
    simp only [transformTrace, Nat.succ_ne_zero, if_false] at he
    split at he
    · rw [List.head?_cons, Option.some.injEq] at he
      rw [← he]
    · rw [List.head?_cons, Option.some.injEq] at he
      rw [← he]

/-- `transform()` chains the steps: claim invariant for the executed trace. -/
theorem transformTrace_chain
    (runs : Nat → Option TransformationStepData → Bool × Option TransformationStepData) :
    ∀ (steps : List TStep) (k : Nat) (prevOut : Option TransformationStepData),
      chainOK (transformTrace runs steps k prevOut).2 := by
  intro steps
  induction steps with
  | nil =>
    intro k prevOut i e1 e2 h2 h1
    simp [transformTrace] at h1
  | cons s rest ih =>
    intro k prevOut i e1 e2 h2 h1
    by_cases hok : (runs k (if k = 0 then s.input else prevOut)).1 = true
    · simp only [transformTrace, hok, if_true] at h1 h2
      cases i with
      | zero =>
        rw [List.get?_cons_zero, Option.some.injEq] at h1
        rw [List.get?_cons_succ, List.get?_zero] at h2
        have hh := transformTrace_head_input runs rest k _ e2 h2
        rw [hh, ← h1]
      | succ j =>
        rw [List.get?_cons_succ] at h1 h2
        exact ih (k + 1) _ j e1 e2 h2 h1
    · simp only [transformTrace, hok, Bool.false_eq_true, if_false] at h1 h2
      rw [List.get?_cons_succ, List.get?_nil] at h2
      exact absurd h2 (by simp)

/-- With start index 0, the first executed step's input is the first step's
own (externally set) input. -/
theorem transformTrace_first_input
    (runs : Nat → Option TransformationStepData → Bool × Option TransformationStepData)
    (steps : List TStep) (prevOut : Option TransformationStepData) (s : TStep)
    (hs : steps.head? = some s) :
    ∀ e, (transformTrace runs steps 0 prevOut).2.head? = some e →
      e.input = s.input := by
  intro e he
  cases steps with
  | nil => simp at hs
  | cons s0 rest =>
    rw [List.head?_cons, Option.some.injEq] at hs
    subst hs
    simp only [transformTrace, eq_self_iff_true, if_true] at he
    split at he
    · rw [List.head?_cons, Option.some.injEq] at he
      rw [← he]
    · rw [List.head?_cons, Option.some.injEq] at he
      rw [← he]

/-- Setting the last step's output leaves the first step's input alone. -/
theorem setLastOutput_head_input (l : List TStep) (o : TransformationStepData) :
    (setLastOutput l o).head?.map TStep.input = l.head?.map TStep.input := by
  cases l with
  | nil => rfl
  | cons s rest =>
    cases rest with
    | nil => rfl
    | cons t r => rfl

/-- A marker sets `in_param_id`; while it is set, alphanumeric characters are
skipped, which is exactly dropping the maximal alphanumeric run. -/
theorem fixupAux_param_skip : ∀ (l : List Char) (n : Nat) (inS inD : Bool),
    fixupAux l n inS inD true = fixupAux (l.dropWhile isAlnum) n inS inD false := by
  intro l
  induction l with
  | nil => intro n inS inD; rfl
  | cons c rest ih =>
    intro n inS inD
    by_cases hal : isAlnum c = true
    · rw [List.dropWhile_cons_of_pos hal]
      simp only [fixupAux, hal, Bool.true_and, if_true]
      exact ih n inS inD
    · have hal2 : isAlnum c = false := by simpa using hal
      rw [List.dropWhile_cons_of_neg (by simp [hal2])]
      simp only [fixupAux, hal2, Bool.and_false, Bool.false_and,
        Bool.false_eq_true, if_false]

/-- One unfolding of the `pgsql_fixup_parameters` loop with `in_param_id`
clear. -/
theorem fixupAux_cons_false (c : Char) (rest : List Char) (n : Nat) (inS inD : Bool) :
    fixupAux (c :: rest) n inS inD false =
      (if c = dquote then c :: fixupAux rest n inS (!inD) false
       else if c = squote then c :: fixupAux rest n (!inS) inD false
       else if c = '?' ∨ c = ':' then
         if !inS && !inD then dollarNum n ++ fixupAux rest (n + 1) inS inD true
         else c :: fixupAux rest n inS inD false
       else c :: fixupAux rest n inS inD false) := by
  simp only [fixupAux, Bool.false_and, Bool.false_eq_true, if_false]

theorem fixupAux_eq_amended : ∀ (N : Nat) (l : List Char), l.length ≤ N →
    ∀ (n : Nat) (inS inD : Bool),
      fixupAux l n inS inD false = fixupAmended l n inS inD := by
  intro N
  induction N with
  | zero =>
    intro l hl n inS inD
    have hnil : l = [] := List.eq_nil_of_length_eq_zero (Nat.le_zero.mp hl)
    subst hnil
    simp only [fixupAux, fixupAmended]
  | succ N ih =>
    intro l hl n inS inD
    cases l with
    | nil => simp only [fixupAux, fixupAmended]
    | cons c rest =>
      have hrest : rest.length ≤ N := by
        simp only [List.length_cons] at hl
        omega
      rw [fixupAux_cons_false]
      rw [show fixupAmended (c :: rest) n inS inD =
          (if c = dquote then c :: fixupAmended rest n inS (!inD)
           else if c = squote then c :: fixupAmended rest n (!inS) inD
           else if (c = '?' ∨ c = ':') ∧ !inS ∧ !inD then
             dollarNum n ++ fixupAmended (rest.dropWhile isAlnum) (n + 1) inS inD
           else c :: fixupAmended rest n inS inD) from by
        simp only [fixupAmended]]
      by_cases hd : c = dquote
      · rw [if_pos hd, if_pos hd, ih rest hrest]
      · rw [if_neg hd, if_neg hd]
        by_cases hs : c = squote
        · rw [if_pos hs, if_pos hs, ih rest hrest]
        · rw [if_neg hs, if_neg hs]
          by_cases hm : c = '?' ∨ c = ':'
          · rw [if_pos hm]
            cases inS with
            | false =>
              cases inD with
              | false =>
                rw [if_pos (by decide : (!false && !false) = true)]
                rw [if_pos (⟨hm, rfl, rfl⟩ :
                  (c = '?' ∨ c = ':') ∧ (!false) = true ∧ (!false) = true)]
                rw [fixupAux_param_skip]
                rw [ih (rest.dropWhile isAlnum)
                  (Nat.le_trans ((List.dropWhile_sublist _).length_le) hrest)]
              | true =>
                rw [if_neg (by decide : ¬((!false && !true) = true))]
                rw [if_neg (fun hcon => by exact absurd hcon.2.2 (by decide))]
                rw [ih rest hrest]
            | true =>
              cases inD with
              | false =>
                rw [if_neg (by decide : ¬((!true && !false) = true))]
                rw [if_neg (fun hcon => by exact absurd hcon.2.1 (by decide))]
                rw [ih rest hrest]
              | true =>
                rw [if_neg (by decide : ¬((!true && !true) = true))]
                rw [if_neg (fun hcon => by exact absurd hcon.2.1 (by decide))]
                rw [ih rest hrest]
          · rw [if_neg hm]
            rw [if_neg (fun hcon => hm hcon.1)]
            rw [ih rest hrest]

/-! ## The claims -/

/-- Claim C1, counterexample: a three-character non-binary column value with
`bfrlen = 3` makes `get_resultset_value` succeed and write 4 bytes — the
trailing NUL lands one byte past `bfr + bfrlen`, so the claim's "never writes
past bfr + bfrlen" is false. -/
theorem C1_counterexample :
    get_resultset_value false false (some ['a', 'b', 'c']) false none 3 =
      GrvOutcome.ok 4 3 false ∧
    3 < (get_resultset_value false false (some ['a', 'b', 'c']) false none 3).written := by
  decide

/-- Claim C1 (amended): `get_resultset_value` returns false whenever the
stored column value's length exceeds `bfrlen`, and a failing call writes
nothing; a successful call writes at most `bfrlen + 1` bytes into `bfr` — the
non-binary path appends a trailing NUL after the value, which is one byte
past `bfrlen` exactly when the value length equals `bfrlen` — and the binary
(bytea-decoding) path writes at most `bfrlen` bytes whenever the raw value is
non-empty. -/
theorem C1_value_copy_bounds (db bytea nul : Bool) (v : List Char)
    (unescaped : Option (List Char)) (bfrlen : Nat) :
    (¬(bytea = true ∧ db = true) → v.length > bfrlen →
      get_resultset_value db bytea (some v) nul unescaped bfrlen = GrvOutcome.fail) ∧
    (∀ u, bytea = true → db = true → unescaped = some u → 0 < v.length →
      u.length > bfrlen →
      get_resultset_value db bytea (some v) nul unescaped bfrlen = GrvOutcome.fail) ∧
    (get_resultset_value db bytea (some v) nul unescaped bfrlen).written ≤ bfrlen + 1 ∧
    (bytea = true → db = true → 0 < v.length →
      (get_resultset_value db bytea (some v) nul unescaped bfrlen).written ≤ bfrlen) := by
  refine ⟨?_, ?_, ?_, ?_⟩
  · intro hnb hlen
    simp only [get_resultset_value]
    rw [if_neg, if_pos hnb, if_pos hlen]
    intro ⟨h0, _⟩
    omega
  · intro u hb hd hu hv hlen
    subst hu
    simp only [get_resultset_value]
    rw [if_neg, if_neg, if_pos hlen]
    · simp [hb, hd]
    · intro ⟨h0, _⟩
      omega
  · simp only [get_resultset_value]
    split
    · simp [GrvOutcome.written]
    · split
      · split
        · simp [GrvOutcome.written]
        · simp [GrvOutcome.written]
          omega
      · split
        · simp [GrvOutcome.written]
        · split
          · simp [GrvOutcome.written]
          · simp only [GrvOutcome.written]
            split <;> omega
  · intro hb hd hv
    simp only [get_resultset_value]
    rw [if_neg, if_neg]
    · split
      · simp [GrvOutcome.written]
      · split
        · simp [GrvOutcome.written]
        · rename_i u hlen
          simp only [GrvOutcome.written]
          split <;> omega
    · simp [hb, hd]
    · intro ⟨h0, _⟩
      omega

/-- Claim C1, witness: a four-character value does not fit a three-byte
buffer, so the call fails. -/
theorem C1_witness :
    get_resultset_value false false (some ['a', 'b', 'c', 'd']) false none 3 =
      GrvOutcome.fail :=
  (C1_value_copy_bounds false false false ['a', 'b', 'c', 'd'] none 3).1
    (by decide) (by decide)

/-- Claim C2, counterexample: a successful UPDATE affecting zero rows makes
`exec` return an error with `get_error_code() = 100`, but `get_state()`
stays at the statement's own SQLSTATE `00000`, not `02000` as claimed. -/
theorem C2_counterexample :
    (pgExec stFix bkFix "UPDATE T SET X = 1").rc = DBERR_SQL_ERROR ∧
    (pgExec stFix bkFix "UPDATE T SET X = 1").st.last_rc = 100 ∧
    (pgExec stFix bkFix "UPDATE T SET X = 1").st.last_state = "00000" ∧
    "00000" ≠ "02000" := by
  refine ⟨rfl, rfl, rfl, by decide⟩

/-- Claim C2 (amended): for every INSERT/UPDATE/DELETE that executes
successfully through `exec` or `exec_params` but affects zero rows, the call
returns `DBERR_SQL_ERROR` and afterwards `get_error_code()` returns 100,
while `get_state()` keeps the SQLSTATE of the successful execution (`00000`
when the backend reports none); it is not set to `02000`. -/
theorem C2_zero_row_dml (st : PGState) (bk : String → PGResult)
    (bkP : String → List (Option (List Char)) → PGResult) (q : String)
    (types : List Nat) (values : List (List Char)) (lengths flags : List Nat)
    (pv : List (Option (List Char)))
    (hdml : is_update_or_delete_statement q = true)
    (hok : (bk q).status = PGRES_COMMAND_OK)
    (hrows : (bk q).cmdTuples ≤ 0)
    (htyv : types.length = values.length) (htyf : types.length = flags.length)
    (hmarshal : buildParamVals values lengths = some pv)
    (hokP : (bkP q pv).status = PGRES_COMMAND_OK)
    (hrowsP : (bkP q pv).cmdTuples ≤ 0) :
    ((pgExec st bk q).rc = DBERR_SQL_ERROR ∧
     (pgExec st bk q).st.last_rc = 100 ∧
     (pgExec st bk q).st.last_state = sqlstateOf (bk q)) ∧
    ((pgExecParams st bkP bk q types values lengths flags).rcOf =
        some DBERR_SQL_ERROR ∧
     ((pgExecParams st bkP bk q types values lengths flags).stOf.map
        PGState.last_rc) = some 100 ∧
     ((pgExecParams st bkP bk q types values lengths flags).stOf.map
        PGState.last_state) = some (sqlstateOf (bkP q pv))) := by
  have htx := not_tx_of_dml q hdml
  constructor
  · simp [pgExec, pgExecTail, htx, pgExecTail.pgExecFinish, hok, hdml, hrows]
  · simp only [pgExecParams, htyv, htyf]
    rw [if_neg (by omega)]
    rw [hmarshal]
    simp [pgExecTail, htx, pgExecTail.pgExecFinish, hokP, hdml, hrowsP,
      ExecParamsOutcome.rcOf, ExecParamsOutcome.stOf]

/-- Claim C2, witness at a zero-row UPDATE through both entry points. -/
theorem C2_witness :
    ((pgExec stFix bkFix "UPDATE T SET X = 1").rc = DBERR_SQL_ERROR ∧
     (pgExec stFix bkFix "UPDATE T SET X = 1").st.last_rc = 100 ∧
     (pgExec stFix bkFix "UPDATE T SET X = 1").st.last_state =
       sqlstateOf (bkFix "UPDATE T SET X = 1")) ∧
    ((pgExecParams stFix bkPFix bkFix "UPDATE T SET X = 1" [] [] [] []).rcOf =
       some DBERR_SQL_ERROR ∧
     ((pgExecParams stFix bkPFix bkFix "UPDATE T SET X = 1" [] [] [] []).stOf.map
       PGState.last_rc) = some 100 ∧
     ((pgExecParams stFix bkPFix bkFix "UPDATE T SET X = 1" [] [] [] []).stOf.map
       PGState.last_state) = some (sqlstateOf (bkPFix "UPDATE T SET X = 1" []))) :=
  C2_zero_row_dml stFix bkFix bkPFix "UPDATE T SET X = 1" [] [] [] [] []
    (by decide) rfl (by decide) rfl rfl rfl rfl (by decide)

/-- Claim C3: when the (lower-cased) statement name resolves to a result set
— the current one for an empty name, the prepared-statement table entry
otherwise — `move_to_first_record` returns true iff that result set has at
least one row; with no rows it returns false and afterwards
`get_error_code()` is 100 (`DBERR_NO_DATA`) and `get_state()` is `02000`. -/
theorem C3_move_to_first (st : PGState) (stmt_name : String)
    (rsd : PGResultSetData) (r : PGResult)
    (hres : resolveStmtRS st (to_lower stmt_name) = some rsd)
    (hr : rsd.resultset = some r) :
    ((move_to_first_record st stmt_name).1 = true ↔ 1 ≤ r.cmdTuples) ∧
    (r.cmdTuples ≤ 0 →
      (move_to_first_record st stmt_name).1 = false ∧
      (move_to_first_record st stmt_name).2.last_rc = DBERR_NO_DATA ∧
      (move_to_first_record st stmt_name).2.last_rc = 100 ∧
      (move_to_first_record st stmt_name).2.last_state = "02000") := by
  have key : move_to_first_record st stmt_name =
      (if r.cmdTuples ≤ 0
       then (false, pgsqlSetError st DBERR_NO_DATA "02000" "No data")
       else (true, st)) := by
    unfold resolveStmtRS at hres
    simp only [move_to_first_record]
    by_cases hemp : to_lower stmt_name = ""
    · rw [if_pos hemp] at hres
      rw [if_pos hemp, hres]
      simp [move_to_first_record.moveToFirstCheck, hr, get_num_rows]
    · rw [if_neg hemp] at hres
      rw [if_neg hemp]
      cases hlk : st.prepared_stmts.lookup (to_lower stmt_name) with
      | none =>
        rw [hlk] at hres
        exact absurd hres (by simp)
      | some w =>
        rw [hlk] at hres
        simp only at hres
        subst hres
        simp [move_to_first_record.moveToFirstCheck, hr, get_num_rows]
  constructor
  · rw [key]
    by_cases hc : r.cmdTuples ≤ 0
    · rw [if_pos hc]
      simp
      omega
    · rw [if_neg hc]
      simp
      omega
  · intro hc
    rw [key, if_pos hc]
    simp [pgsqlSetError, DBERR_NO_DATA]

/-- Claim C3, witness: a prepared statement with three rows, resolved
case-insensitively. -/
theorem C3_witness :
    ((move_to_first_record
        ⟨[("p1", some ⟨some ⟨2, "", none, 3⟩, -1, 0⟩)], none, 0, "", "", false, true, true, true⟩
        "P1").1 = true ↔ 1 ≤ (3 : Int)) ∧
    ((3 : Int) ≤ 0 →
      (move_to_first_record
        ⟨[("p1", some ⟨some ⟨2, "", none, 3⟩, -1, 0⟩)], none, 0, "", "", false, true, true, true⟩
        "P1").1 = false ∧
      (move_to_first_record
        ⟨[("p1", some ⟨some ⟨2, "", none, 3⟩, -1, 0⟩)], none, 0, "", "", false, true, true, true⟩
        "P1").2.last_rc = DBERR_NO_DATA ∧
      (move_to_first_record
        ⟨[("p1", some ⟨some ⟨2, "", none, 3⟩, -1, 0⟩)], none, 0, "", "", false, true, true, true⟩
        "P1").2.last_rc = 100 ∧
      (move_to_first_record
        ⟨[("p1", some ⟨some ⟨2, "", none, 3⟩, -1, 0⟩)], none, 0, "", "", false, true, true, true⟩
        "P1").2.last_state = "02000") :=
  C3_move_to_first
    ⟨[("p1", some ⟨some ⟨2, "", none, 3⟩, -1, 0⟩)], none, 0, "", "", false, true, true, true⟩
    "P1" ⟨some ⟨2, "", none, 3⟩, -1, 0⟩ ⟨2, "", none, 3⟩ (by decide) rfl

/-- Claim C4: in every `process()` execution that reaches `transform()`,
the first executed step's input is the Filename record carrying the
configured input file `_infile`, and every later executed step's input is
exactly the output the previous step produced. -/
theorem C4_pipeline_chain (steps : List TStep) (infile outfile : String)
    (no_output : Bool) (fexists : String → Bool)
    (runs : Nat → Option TransformationStepData → Bool × Option TransformationStepData)
    (b : Bool) (tr : List RunEntry)
    (hp : process steps infile outfile no_output fexists runs = some (b, tr)) :
    (∀ e, tr.head? = some e →
      e.input = some ⟨TSDType.Filename, infile⟩) ∧ chainOK tr := by
  cases steps with
  | nil => simp [process] at hp
  | cons s0 rest =>
    simp only [process] at hp
    split at hp
    · exact Option.noConfusion hp
    · split at hp
      · exact Option.noConfusion hp
      · split at hp
        · exact Option.noConfusion hp
        · rw [Option.some.injEq] at hp
          have htr := congrArg Prod.snd hp
          simp only at htr
          constructor
          · intro e he
            rw [← htr] at he
            have hmap := setLastOutput_head_input
              ({ s0 with input := some ⟨TSDType.Filename, infile⟩ } :: rest)
              ⟨TSDType.Filename, outfile⟩
            rw [List.head?_cons, Option.map_some'] at hmap
            obtain ⟨sh, hsh, hshin⟩ := Option.map_eq_some'.mp hmap
            have hin := transformTrace_first_input runs _ none sh hsh e he
            rw [hin, hshin]
          · rw [← htr]
            exact transformTrace_chain runs _ 0 none

/-- Claim C4, witness: a concrete two-step pipeline. -/
theorem C4_witness :
    (∀ e, ([⟨some ⟨TSDType.Filename, "in.cbl"⟩, some ⟨TSDType.Buffer, "B"⟩, true⟩,
            ⟨some ⟨TSDType.Buffer, "B"⟩, some ⟨TSDType.Buffer, "B"⟩, true⟩] :
            List RunEntry).head? = some e →
      e.input = some ⟨TSDType.Filename, "in.cbl"⟩) ∧
    chainOK [⟨some ⟨TSDType.Filename, "in.cbl"⟩, some ⟨TSDType.Buffer, "B"⟩, true⟩,
             ⟨some ⟨TSDType.Buffer, "B"⟩, some ⟨TSDType.Buffer, "B"⟩, true⟩] :=
  C4_pipeline_chain [⟨none, none⟩, ⟨none, none⟩] "in.cbl" "out.cob" false
    (fun _ => true) (fun _ _ => (true, some ⟨TSDType.Buffer, "B"⟩)) true
    [⟨some ⟨TSDType.Filename, "in.cbl"⟩, some ⟨TSDType.Buffer, "B"⟩, true⟩,
     ⟨some ⟨TSDType.Buffer, "B"⟩, some ⟨TSDType.Buffer, "B"⟩, true⟩] rfl

/-- Claim C5: with autocommit off, a successful `connect()` has issued
exactly one `BEGIN TRANSACTION` (its last setup command), leaving exactly one
transaction open; and every COMMIT/ROLLBACK that executes successfully
through `exec` or `exec_params` is immediately followed by an internally
issued `START TRANSACTION`, so exactly one transaction is open afterwards. -/
theorem C5_autocommit_transactions (bk : String → PGResult)
    (bkP : String → List (Option (List Char)) → PGResult)
    (sch : Option String) (st : PGState) (q : String) (txn : Bool)
    (types : List Nat) (values : List (List Char)) (lengths flags : List Nat)
    (pv : List (Option (List Char)))
    (hconn : (pgConnect true true bk true sch).1 = DBERR_NO_ERROR)
    (hoff : st.autocommit_off = true)
    (htx : is_tx_termination_statement q = true)
    (hq : (bk q).status = PGRES_COMMAND_OK)
    (htyv : types.length = values.length) (htyf : types.length = flags.length)
    (hmarshal : buildParamVals values lengths = some pv)
    (hqP : (bkP q pv).status = PGRES_COMMAND_OK) :
    ((pgConnect true true bk true sch).2.count "BEGIN TRANSACTION" = 1) ∧
    (txnAfter false (pgConnect true true bk true sch).2 = true) ∧
    ((pgExec st bk q).issued = [q, "START TRANSACTION"]) ∧
    (txnAfter txn (pgExec st bk q).issued = true) ∧
    ((pgExecParams st bkP bk q types values lengths flags).issuedOf =
        some [q, "START TRANSACTION"]) ∧
    (txnAfter txn [q, "START TRANSACTION"] = true) := by
  obtain ⟨pre, hpre, hcount⟩ := pgConnect_off_success bk sch hconn
  have hexec : (pgExec st bk q).issued = [q, "START TRANSACTION"] := by
    simp [pgExec, pgExecTail, hoff, htx, hq]
  have htxn : txnAfter txn [q, "START TRANSACTION"] = true := by
    have h2 : [q, "START TRANSACTION"] = [q] ++ ["START TRANSACTION"] := rfl
    rw [h2]
    unfold txnAfter
    rw [List.foldl_append]
    simp [txnStep]
  refine ⟨?_, ?_, hexec, ?_, ?_, htxn⟩
  · rw [hpre, List.count_append, hcount]
    simp
  · rw [hpre]
    unfold txnAfter
    rw [List.foldl_append]
    simp [txnStep]
  · rw [hexec]
    exact htxn
  · simp only [pgExecParams, htyv, htyf]
    rw [if_neg (by omega)]
    rw [hmarshal]
    simp [pgExecTail, hoff, htx, hqP, ExecParamsOutcome.issuedOf]

/-- Claim C5, witness: connect with autocommit off, then a COMMIT. -/
theorem C5_witness :
    ((pgConnect true true bkFix true none).2.count "BEGIN TRANSACTION" = 1) ∧
    (txnAfter false (pgConnect true true bkFix true none).2 = true) ∧
    ((pgExec stOffFix bkFix "COMMIT").issued = ["COMMIT", "START TRANSACTION"]) ∧
    (txnAfter false (pgExec stOffFix bkFix "COMMIT").issued = true) ∧
    ((pgExecParams stOffFix bkPFix bkFix "COMMIT" [] [] [] []).issuedOf =
        some ["COMMIT", "START TRANSACTION"]) ∧
    (txnAfter false ["COMMIT", "START TRANSACTION"] = true) :=
  C5_autocommit_transactions bkFix bkPFix none stOffFix "COMMIT" false [] [] [] [] []
    (by decide) rfl (by decide) rfl rfl rfl rfl rfl

/-- Claim C6, counterexample: in the input consisting of a single-quoted
double-quote character followed by `?`, the `?` lies outside every quoted
region, yet the code copies it verbatim (the inner `\x22` toggled the
double-quote flag), where the claim's reading demands `$1`. -/
theorem C6_counterexample :
    pgsql_fixup_parameters [squote, dquote, squote, '?'] =
      [squote, dquote, squote, '?'] ∧
    fixup_as_claimed [squote, dquote, squote, '?'] =
      [squote, dquote, squote, '$', '1'] ∧
    pgsql_fixup_parameters [squote, dquote, squote, '?'] ≠
      fixup_as_claimed [squote, dquote, squote, '?'] := by
  refine ⟨by decide, by decide, by decide⟩

/-- Claim C6 (amended): `pgsql_fixup_parameters` behaves as `fixupAmended`:
every `\x22` toggles the double-quote flag and every `\x27` the single-quote
flag, even inside the other kind of quotes; a `?` or `:` seen with both flags
clear is replaced by `$n`, numbered 1, 2, … in replacement order, and the
alphanumeric run immediately after it is dropped; every other character — and
any `?`/`:` seen with a flag set — is copied verbatim. -/
theorem C6_fixup_actual (sql : List Char) :
    pgsql_fixup_parameters sql = fixupAmended sql 1 false false :=
  fixupAux_eq_amended sql.length sql (Nat.le_refl _) 1 false false

/-- Claim C7, counterexample: with types, values and flags of length one but
an empty lengths array, the arrays are not all the same length, yet the call
does not return `INTERNAL_ERR`: `paramLengths.at(0)` throws. -/
theorem C7_counterexample :
    pgExecParams stFix bkPFix bkFix "q" [0] [['a']] [] [0] =
      ExecParamsOutcome.thrown ∧
    (pgExecParams stFix bkPFix bkFix "q" [0] [['a']] [] [0]).rcOf ≠
      some DBERR_INTERNAL_ERR := by
  constructor
  · rfl
  · intro h
    simp [pgExecParams, buildParamVals, ExecParamsOutcome.rcOf] at h

/-- Claim C7 (amended): the parameter-count check compares only the types,
values and flags arrays; when those lengths disagree, `exec_params` and
`exec_prepared` (for a known statement) return `DBERR_INTERNAL_ERR` and send
nothing to the backend.  The lengths array is not part of the check. -/
theorem C7_shape_check (st : PGState)
    (bkP bkExecP : String → List (Option (List Char)) → PGResult)
    (bk : String → PGResult) (q nm : String)
    (types : List Nat) (values : List (List Char)) (lengths flags : List Nat)
    (hmis : types.length ≠ values.length ∨ types.length ≠ flags.length) :
    pgExecParams st bkP bk q types values lengths flags =
      ExecParamsOutcome.ret
        ⟨DBERR_INTERNAL_ERR,
         { st with last_error := "Internal error: parameter count mismatch",
                   last_rc := DBERR_INTERNAL_ERR }, []⟩ ∧
    ((st.prepared_stmts.lookup (to_lower nm)).isSome = true →
      pgExecPrepared st bkExecP nm types values lengths flags =
        ExecParamsOutcome.ret
          ⟨DBERR_INTERNAL_ERR,
           { st with last_error := "Internal error: parameter count mismatch",
                     last_rc := DBERR_INTERNAL_ERR }, []⟩) := by
  constructor
  · simp [pgExecParams, hmis]
  · intro hfound
    have hnotnone : ¬((st.prepared_stmts.lookup (to_lower nm)).isNone = true) := by
      simp only [Option.isNone_iff_eq_none]
      intro hnone
      rw [hnone] at hfound
      simp at hfound
    simp only [pgExecPrepared]
    rw [if_neg hnotnone, if_pos hmis]

/-- Claim C7, witness: two types against one value. -/
theorem C7_witness :
    pgExecParams stFix bkPFix bkFix "q" [0, 0] [['a']] [0, 0] [0, 0] =
      ExecParamsOutcome.ret
        ⟨DBERR_INTERNAL_ERR,
         { stFix with last_error := "Internal error: parameter count mismatch",
                      last_rc := DBERR_INTERNAL_ERR }, []⟩ :=
  (C7_shape_check stFix bkPFix bkPFix bkFix "q" "n" [0, 0] [['a']] [0, 0] [0, 0]
    (Or.inl (by decide))).1

/-- Claim C8: `prepare` lower-cases the statement name before any use, so
two names with the same lower-casing behave identically; a name already
present (lower-cased) in the prepared-statement table fails with
`DBERR_PREPARE_FAILED` leaving the whole driver state unchanged; and
`exec_prepared` resolves statement names case-insensitively. -/
theorem C8_prepare_case_insensitive (st : PGState)
    (bkPrep : String → String → PGResult)
    (bkExecP : String → List (Option (List Char)) → PGResult)
    (nm nm2 sql : String) (types : List Nat) (values : List (List Char))
    (lengths flags : List Nat)
    (hlow : to_lower nm = to_lower nm2) :
    ((st.prepared_stmts.lookup (to_lower nm)).isSome = true →
      pgPrepare st bkPrep nm sql = (DBERR_PREPARE_FAILED, st)) ∧
    pgPrepare st bkPrep nm sql = pgPrepare st bkPrep nm2 sql ∧
    pgExecPrepared st bkExecP nm types values lengths flags =
      pgExecPrepared st bkExecP nm2 types values lengths flags := by
  refine ⟨?_, ?_, ?_⟩
  · intro hfound
    simp [pgPrepare, hfound]
  · simp only [pgPrepare]
    rw [hlow]
  · simp only [pgExecPrepared]
    rw [hlow]

/-- Claim C8, witness: `P1` collides with the prepared name `p1`. -/
theorem C8_witness :
    (pgPrepare ⟨[("p1", none)], none, 0, "", "", false, true, true, true⟩
        (fun _ _ => ⟨PGRES_COMMAND_OK, "", none, 0⟩) "P1" "SELECT 1" =
      (DBERR_PREPARE_FAILED, ⟨[("p1", none)], none, 0, "", "", false, true, true, true⟩)) ∧
    (pgExecPrepared ⟨[("p1", none)], none, 0, "", "", false, true, true, true⟩
        (fun _ _ => ⟨PGRES_COMMAND_OK, "", none, 0⟩) "P1" [] [] [] [] =
      pgExecPrepared ⟨[("p1", none)], none, 0, "", "", false, true, true, true⟩
        (fun _ _ => ⟨PGRES_COMMAND_OK, "", none, 0⟩) "p1" [] [] [] []) := by
  have h := C8_prepare_case_insensitive
    ⟨[("p1", none)], none, 0, "", "", false, true, true, true⟩
    (fun _ _ => ⟨PGRES_COMMAND_OK, "", none, 0⟩)
    (fun _ _ => ⟨PGRES_COMMAND_OK, "", none, 0⟩)
    "P1" "p1" "SELECT 1" [] [] [] [] (by decide)
  exact ⟨h.1 (by decide), h.2.2⟩

/-- Claim C9, evaluation at the failing input: `-i foo.cbl -o @.cob` derives
the output name `foo..cob`, not `foo.cob` as the spec states, because
`p.extension()` keeps its leading dot and the code appends another `.`;
the second half of the claim holds: equal input and output names exit
with code 1. -/
theorem C9_alias_double_dot :
    deriveOutfile "foo.cbl" "@.cob" = "foo..cob" ∧
    "foo..cob" ≠ "foo.cob" ∧
    checkFiles "foo.cbl" "foo.cbl" = Except.error 1 :=
  ⟨rfl, by decide, rfl⟩

/-- Claim C10: `cursor_close` returns `DBERR_NO_ERROR` for every non-null
cursor — the result of the emitted `CLOSE <name>` is bound to an inner `rc`
that shadows the outer one — and clears the cursor's private result-set
data; `DBERR_CLOSE_CURSOR_FAILED` is returned only for a null cursor. -/
theorem C10_cursor_close_always_ok (st : PGState) (bk : String → PGResult)
    (c : PGCursor) :
    (cursor_close st bk (some c)).1 = DBERR_NO_ERROR ∧
    (cursor_close st bk (some c)).2.2 = some { c with privateData := none } ∧
    cursor_close st bk none = (DBERR_CLOSE_CURSOR_FAILED, st, none) := by
  refine ⟨?_, ?_, ?_⟩
  · simp [cursor_close, DBERR_NO_ERROR]
  · cases c with
    | mk nm pd =>
      cases pd <;> simp [cursor_close]
  · simp [cursor_close]

